import Mathlib

/-!
Shallow embedding of the connection/authentication/retry core of the
`amcrest` HTTP client (`src/amcrest/http.py`, class `Http`).

Network I/O is modelled by oracles: a probe / attempt oracle maps the
attempt number (or auth scheme) to the outcome the corresponding
`requests` call would produce.  An outcome is either a completed HTTP
response (carrying a status code and a body), a read timeout, or a
connection-level error.  `requests.Response.raise_for_status` is an
external-library call; following the specification's failure criterion
("the response status indicates failure (non-2xx)") it is embedded as
raising an `HTTPError` exactly when the status code is not in 2xx.
Python exceptions become `Except` values.
-/

namespace Amcrest

/-- An HTTP response as seen by the client: the status code and the body
text (`requests.Response.status_code` / `.text`). -/
structure Response where
  status_code : Nat
  text : String
deriving DecidableEq, Repr

/-- Status-code success test: `raise_for_status` does not raise exactly
when the status indicates success, i.e. is in the 2xx range. -/
def httpOk (s : Nat) : Bool := 200 ≤ s && s < 300

/-- The authentication schemes negotiated in `Http._generate_token`:
`'basic'` (HTTPBasicAuth) and `'digest'` (HTTPDigestAuth). -/
inductive Scheme
  | basic
  | digest
deriving DecidableEq, Repr

/-- The credential object returned by `_generate_token` (the `auth`
value): the committed scheme together with user and password. -/
structure Credential where
  scheme : Scheme
  user : String
  password : String
deriving DecidableEq, Repr

/-- Python exceptions relevant to this client:
`requests.HTTPError` (carrying the offending response),
`requests.exceptions.ReadTimeout`, other transport errors
(connection errors / connect timeouts), and `AttributeError`. -/
inductive PyExc
  | httpError (resp : Response)
  | readTimeout
  | connectionError
  | attributeError
deriving DecidableEq, Repr

/-- Outcome of a single `requests` call (`session.get` / `requests.get` /
`requests.post`): a completed response, or a raised transport
exception. -/
inductive RequestOutcome
  | resp (r : Response)
  | readTimeout
  | connectionError
deriving DecidableEq, Repr

/-- Python's `x or default` used on optional numeric arguments
(`http.py` lines 143-144: `retries = retries or self._retries_default`,
`timeout = timeout_cmd or self._timeout_default`): `None` is falsy, and
so is `0`. -/
def resolveDefault (arg : Option Nat) (dflt : Nat) : Nat :=
  match arg with
  | none => dflt
  | some v => if v = 0 then dflt else v

/-- The retry loop of `Http.command` (`for loop in range(1, 2 + retries)`),
started at iteration `loop`.  `attempts i` is the outcome of the GET
issued on iteration `i`.  Returns the number of GET attempts issued
together with the result: the streamed response on success, or the
propagated exception.  A non-2xx response raises `HTTPError`, which is
caught and retried while `loop <= retries`; transport exceptions are not
caught by `except requests.HTTPError` and propagate at once. -/
def commandAttempts (attempts : Nat → RequestOutcome) (retries : Nat)
    (loop : Nat) : Nat × Except PyExc Response :=
  match attempts loop with
  | .readTimeout => (1, .error .readTimeout)
  | .connectionError => (1, .error .connectionError)
  | .resp resp =>
    if httpOk resp.status_code then (1, .ok resp)
    else if h : loop ≤ retries then
      let rest := commandAttempts attempts retries (loop + 1)
      (rest.1 + 1, rest.2)
    else (1, .error (.httpError resp))
termination_by retries + 1 - loop
decreasing_by omega

/-- `Http.command` after resolution of the effective retry count
(`http.py` lines 148-168): the loop over attempts `1 .. retries + 1`. -/
def command (attempts : Nat → RequestOutcome) (retries : Nat) :
    Nat × Except PyExc Response :=
  commandAttempts attempts retries 1

/-- Does the character list `p` occur at the head of `l`? -/
def leadsWith : List Char → List Char → Bool
  | [], _ => true
  | _ :: _, [] => false
  | a :: as, b :: bs => a == b && leadsWith as bs

/-- Python's substring test `needle in hay` over character lists. -/
def containsSub (needle : List Char) : List Char → Bool
  | [] => needle == []
  | c :: cs => leadsWith needle (c :: cs) || containsSub needle cs

/-- Python's `needle in hay` on strings. -/
def strContains (hay needle : String) : Bool :=
  containsSub needle.data hay.data

/-- Python's `str.lower()` (ASCII case folding, which is all the
markers below need). -/
def strLower (s : String) : String :=
  String.mk (s.data.map Char.toLower)

/-- The credential check of `_generate_token` (lines 89-90):
`'invalid' in req.text.lower() or 'error' in req.text.lower()`. -/
def hasCredentialMarker (t : String) : Bool :=
  strContains (strLower t) "invalid" || strContains (strLower t) "error"

/-- Outcome of `Http._generate_token`: which schemes were probed (in
order) and the result — the committed credential, or the exception that
aborts client construction. -/
structure NegotiationOutcome where
  probes : List Scheme
  result : Except PyExc Credential
deriving Repr

/-- `Http._generate_token` (lines 67-93).  `probe s` is the response to
the `magicBox.cgi?action=getMachineName` probe issued under scheme `s`.
The basic probe is tried first; on a non-2xx status (`raise_for_status`
raising `HTTPError`) the digest probe is tried; a digest 2xx response
whose body contains a credential marker re-raises the basic probe's
`HTTPError` (the bare `raise` on line 92). -/
def generate_token (user password : String) (probe : Scheme → Response) :
    NegotiationOutcome :=
  let basicResp := probe .basic
  if httpOk basicResp.status_code then
    { probes := [.basic], result := .ok ⟨.basic, user, password⟩ }
  else
    let digestResp := probe .digest
    if httpOk digestResp.status_code then
      if hasCredentialMarker digestResp.text then
        { probes := [.basic, .digest],
          result := .error (.httpError basicResp) }
      else
        { probes := [.basic, .digest],
          result := .ok ⟨.digest, user, password⟩ }
    else
      { probes := [.basic, .digest],
        result := .error (.httpError digestResp) }

/-- The `self._session` map of `Http`: retry-count key to session
object (session objects are identified by a creation counter), plus the
counter for the next fresh session. -/
structure SessionState where
  sessions : List (Nat × Nat)
  nextId : Nat
deriving DecidableEq, Repr

/-- Python `dict` lookup on an association list. -/
def dictFind (k : Nat) : List (Nat × Nat) → Option Nat
  | [] => none
  | (k2, v) :: rest => if k2 = k then some v else dictFind k rest

/-- `Http._get_session` (lines 124-134): under the lock, return the
cached session for `max_retries` or create, cache and return a fresh
one.  The lock makes the whole lookup-or-create step atomic, which this
sequential function models. -/
def get_session (st : SessionState) (max_retries : Nat) :
    Nat × SessionState :=
  match dictFind max_retries st.sessions with
  | some sid => (sid, st)
  | none =>
    (st.nextId,
     { sessions := st.sessions ++ [(max_retries, st.nextId)],
       nextId := st.nextId + 1 })

/-- `Http._set_name` (lines 95-102).  `machineName` is the outcome of
evaluating `pretty(self.machine_name)` and `serialNumber` that of
`self.serial_number` (both go through `Http.command`; any exception
they raise is the argument's `.error` case).  Returns the final
`(_name, _serial)` fields on normal completion, or the exception that
escapes: only `AttributeError` is caught. -/
def set_name (machineName serialNumber : Except PyExc String) :
    Except PyExc (Option String × Option String) :=
  match machineName with
  | .ok n =>
    match serialNumber with
    | .ok s => .ok (some n, some s)
    | .error .attributeError => .ok (none, none)
    | .error e => .error e
  | .error .attributeError => .ok (none, none)
  | .error e => .error e

/-- The instance dictionary `self.__dict__` of a fully constructed
`Http` object, one field per attribute assigned in `__init__` /
`_generate_token` / `_set_name`.  Values are the string representations
of the stored Python objects. -/
structure HttpState where
  _host : String
  _port : String
  _user : String
  _password : String
  _verbose : String
  _protocol : String
  _base_url : String
  _retries_default : String
  _timeout_default : String
  _session : String
  _get_session_lock : String
  _authentication : String
  _token : String
  _name : String
  _serial : String
deriving DecidableEq, Repr

/-- Lookup in a string-keyed Python `dict` modelled as an association
list. -/
def dictFindS (k : String) : List (String × String) → Option String
  | [] => none
  | (k2, v) :: rest => if k2 = k then some v else dictFindS k rest

/-- Is `k` a key of the dict? -/
def dictHasKey (k : String) : List (String × String) → Bool
  | [] => false
  | (k2, _) :: rest => k2 == k || dictHasKey k rest

/-- Python `d[k] = v`: replace the value in place when the key exists,
append otherwise. -/
def dictSet (d : List (String × String)) (k v : String) :
    List (String × String) :=
  if dictHasKey k d then
    d.map (fun p => if p.1 = k then (k, v) else p)
  else d ++ [(k, v)]

/-- `self.__dict__` as a dict, in attribute-assignment order. -/
def http_dict (st : HttpState) : List (String × String) :=
  [("_host", st._host), ("_port", st._port), ("_user", st._user),
   ("_password", st._password), ("_verbose", st._verbose),
   ("_protocol", st._protocol), ("_base_url", st._base_url),
   ("_retries_default", st._retries_default),
   ("_timeout_default", st._timeout_default),
   ("_session", st._session),
   ("_get_session_lock", st._get_session_lock),
   ("_authentication", st._authentication),
   ("_token", st._token), ("_name", st._name), ("_serial", st._serial)]

/-- The mask string of `Http.as_dict` (line 111). -/
def redacted : String := "**********"

/-- `Http.as_dict` (lines 108-114): copy `self.__dict__`, overwrite the
`_token` and `_password` entries of the copy with the mask, return the
copy.  The (unchanged) instance state is returned alongside to express
that the call does not mutate the object. -/
def as_dict (st : HttpState) : List (String × String) × HttpState :=
  let cdict := http_dict st
  let cdict := dictSet cdict "_token" redacted
  let cdict := dictSet cdict "_password" redacted
  (cdict, st)

/-- `Http.command_audio` (lines 170-185).  `post i` is the outcome of
the `i`-th POST issued (only one is ever issued).  Returns the number
of POSTs issued and the result: the response is discarded and its
status never checked; `except requests.exceptions.ReadTimeout: pass`
swallows a read timeout; any other transport exception propagates. -/
def command_audio (post : Nat → RequestOutcome) :
    Nat × Except PyExc Unit :=
  match post 1 with
  | .resp _ => (1, .ok ())
  | .readTimeout => (1, .ok ())
  | .connectionError => (1, .error .connectionError)

end Amcrest

namespace Amcrest

theorem commandAttempts_unfold (attempts : Nat → RequestOutcome)
    (retries loop : Nat) :
    commandAttempts attempts retries loop =
      match attempts loop with
      | .readTimeout => (1, .error .readTimeout)
      | .connectionError => (1, .error .connectionError)
      | .resp resp =>
        if httpOk resp.status_code then (1, .ok resp)
        else if loop ≤ retries then
          let rest := commandAttempts attempts retries (loop + 1)
          (rest.1 + 1, rest.2)
        else (1, .error (.httpError resp)) := by
  rw [commandAttempts]
  rcases attempts loop with r | _ | _ <;> simp

/-- If every attempt from iteration `loop` up to `retries + 1` yields a
response with a failing status, the loop makes the remaining
`d + 1 = retries + 2 - loop` attempts and raises the final error. -/
theorem commandAttempts_all_fail (f : Nat → Response) (retries : Nat) :
    ∀ d loop, loop + d = retries + 1 → 1 ≤ loop →
    (∀ i, loop ≤ i → i ≤ retries + 1 → httpOk (f i).status_code = false) →
    commandAttempts (fun i => .resp (f i)) retries loop =
      (d + 1, .error (.httpError (f (retries + 1)))) := by
  intro d
  induction d with
  | zero =>
    intro loop hsum _ hfail
    have hloop : loop = retries + 1 := by omega
    rw [commandAttempts_unfold]
    simp only [hfail loop le_rfl (by omega)]
    have : ¬ loop ≤ retries := by omega
    simp [this, hloop]
  | succ d ih =>
    intro loop hsum hpos hfail
    rw [commandAttempts_unfold]
    simp only [hfail loop le_rfl (by omega)]
    have hle : loop ≤ retries := by omega
    simp only [hle, if_true, Bool.false_eq_true, if_false]
    rw [ih (loop + 1) (by omega) (by omega)
      (fun i hi hi2 => hfail i (by omega) hi2)]

/-- C1: For every retry count `r ≥ 0` (the effective count resolved at
the top of `Http.command`), if every GET attempt fails with a non-2xx
HTTP error status, then `command` makes exactly `r + 1` attempts and
raises the HTTP error of the final attempt to the caller. -/
theorem command_all_fail (f : Nat → Response) (r : Nat)
    (hfail : ∀ i, 1 ≤ i → i ≤ r + 1 → httpOk (f i).status_code = false) :
    command (fun i => .resp (f i)) r =
      (r + 1, .error (.httpError (f (r + 1)))) := by
  unfold command
  rw [commandAttempts_all_fail f r r 1 (by omega) le_rfl hfail]

theorem command_all_fail_witness :
    (∀ i, 1 ≤ i → i ≤ 3 → httpOk ((fun _ => Response.mk 500 "err") i).status_code = false) ∧
    command (fun i => .resp ((fun _ => Response.mk 500 "err") i)) 2 =
      (3, .error (.httpError (Response.mk 500 "err"))) :=
  ⟨fun _ _ _ => rfl,
   command_all_fail (fun _ => Response.mk 500 "err") 2 (fun _ _ _ => rfl)⟩

/-- If attempts `loop .. k - 1` fail with a non-2xx status and attempt
`k = loop + d` succeeds, the loop stops at attempt `k` with its
response. -/
theorem commandAttempts_first_ok (f : Nat → Response) (retries k : Nat)
    (hk : k ≤ retries + 1) (hok : httpOk (f k).status_code = true) :
    ∀ d loop, loop + d = k → 1 ≤ loop →
    (∀ i, loop ≤ i → i < k → httpOk (f i).status_code = false) →
    commandAttempts (fun i => .resp (f i)) retries loop =
      (d + 1, .ok (f k)) := by
  intro d
  induction d with
  | zero =>
    intro loop hsum _ _
    have hloop : loop = k := by omega
    rw [commandAttempts_unfold]
    simp [hloop, hok]
  | succ d ih =>
    intro loop hsum hpos hfail
    rw [commandAttempts_unfold]
    simp only [hfail loop le_rfl (by omega)]
    have hle : loop ≤ retries := by omega
    simp only [hle, if_true, Bool.false_eq_true, if_false]
    rw [ih (loop + 1) (by omega) (by omega)
      (fun i hi hi2 => hfail i (by omega) hi2)]

/-- C2: For every retry count `r` and every `k` with `1 ≤ k ≤ r + 1`, if
the first `k - 1` GET attempts fail with a non-2xx HTTP error status and
the `k`-th attempt succeeds (2xx), then `command` makes exactly `k`
attempts and returns the successful response of attempt `k`, with no
further attempts. -/
theorem command_first_ok (f : Nat → Response) (r k : Nat)
    (hk1 : 1 ≤ k) (hk2 : k ≤ r + 1)
    (hfail : ∀ i, 1 ≤ i → i < k → httpOk (f i).status_code = false)
    (hok : httpOk (f k).status_code = true) :
    command (fun i => .resp (f i)) r = (k, .ok (f k)) := by
  unfold command
  rw [commandAttempts_first_ok f r k hk2 hok (k - 1) 1 (by omega) le_rfl hfail]
  congr 1
  omega

theorem command_first_ok_witness :
    (1 ≤ 2 ∧ 2 ≤ 4 + 1) ∧
    command (fun i => .resp (if i < 2 then Response.mk 503 "busy" else Response.mk 200 "OK")) 4 =
      (2, .ok (Response.mk 200 "OK")) := by
  refine ⟨⟨by omega, by omega⟩, ?_⟩
  have h := command_first_ok
    (fun i => if i < 2 then Response.mk 503 "busy" else Response.mk 200 "OK") 4 2
    (by omega) (by omega)
    (fun i h1 h2 => by
      have : i < 2 := h2
      simp [this, httpOk])
    (by simp [httpOk])
  simpa using h

/-- C3 counterexample: supplying the explicit value `0` for `retries`
does not make the effective retry count `0`; the Python `or` falls back
to the per-client default (here `3`). -/
theorem resolveDefault_zero_counterexample :
    resolveDefault (some 0) 3 = 3 ∧ resolveDefault (some 0) 3 ≠ 0 := by
  decide

/-- C3 amended: an explicit non-zero argument overrides the per-client
default; an absent argument uses the default; an explicit `0` also
falls back to the default (Python `x or default` treats `0` as falsy).
Both the retries and the timeout of `Http.command` are resolved by this
rule (lines 143-144). -/
theorem resolveDefault_spec (v d : Nat) (hv : v ≠ 0) :
    resolveDefault (some v) d = v ∧ resolveDefault none d = d ∧
    resolveDefault (some 0) d = d := by
  refine ⟨?_, rfl, rfl⟩
  simp [resolveDefault, hv]

theorem resolveDefault_spec_witness :
    (7 : Nat) ≠ 0 ∧
    (resolveDefault (some 7) 3 = 7 ∧ resolveDefault none 3 = 3 ∧
     resolveDefault (some 0) 3 = 3) :=
  ⟨by decide, resolveDefault_spec 7 3 (by decide)⟩

/-- C4: if the Basic probe returns 2xx, negotiation commits to Basic
and no Digest probe is issued; if the Basic probe fails with an HTTP
error status, exactly the two probes Basic then Digest are issued; no
scheme is ever probed more than once. -/
theorem generate_token_spec (user password : String)
    (probe : Scheme → Response) :
    (httpOk (probe .basic).status_code = true →
      generate_token user password probe =
        { probes := [.basic], result := .ok ⟨.basic, user, password⟩ }) ∧
    (httpOk (probe .basic).status_code = false →
      (generate_token user password probe).probes = [.basic, .digest]) ∧
    (generate_token user password probe).probes.Nodup := by
  refine ⟨fun h => ?_, fun h => ?_, ?_⟩
  · simp [generate_token, h]
  · simp only [generate_token]
    rw [if_neg (by simp [h])]
    split_ifs <;> rfl
  · by_cases h : httpOk (probe .basic).status_code = true
    · simp [generate_token, h]
    · simp only [generate_token]
      rw [if_neg h]
      split_ifs <;> simp

theorem generate_token_spec_witness :
    httpOk ((fun _ : Scheme => Response.mk 200 "name=cam") .basic).status_code = true ∧
    generate_token "admin" "pw" (fun _ => Response.mk 200 "name=cam") =
      { probes := [.basic], result := .ok ⟨.basic, "admin", "pw"⟩ } :=
  ⟨rfl,
   (generate_token_spec "admin" "pw" (fun _ => Response.mk 200 "name=cam")).1 rfl⟩

/-- C5: when the Basic probe failed and the Digest probe returns 2xx,
a digest body containing the marker `"invalid"` or `"error"` (any
letter case) makes construction raise (the negotiation result is an
error — the re-raised HTTP error of the Basic probe), while a clean
digest body commits to the Digest credential. -/
theorem generate_token_digest_spec (user password : String)
    (probe : Scheme → Response)
    (hbasic : httpOk (probe .basic).status_code = false)
    (hdigest : httpOk (probe .digest).status_code = true) :
    (hasCredentialMarker (probe .digest).text = true →
      (generate_token user password probe).result =
        .error (.httpError (probe .basic))) ∧
    (hasCredentialMarker (probe .digest).text = false →
      (generate_token user password probe).result =
        .ok ⟨.digest, user, password⟩) := by
  constructor <;> intro h <;> simp [generate_token, hbasic, hdigest, h]

theorem generate_token_digest_spec_witness :
    (httpOk 401 = false ∧ httpOk 200 = true ∧
     hasCredentialMarker "Invalid credentials!" = true) ∧
    (generate_token "admin" "pw"
      (fun s => match s with
        | .basic => Response.mk 401 "unauthorized"
        | .digest => Response.mk 200 "Invalid credentials!")).result =
      .error (.httpError (Response.mk 401 "unauthorized")) :=
  ⟨⟨rfl, rfl, by decide⟩,
   (generate_token_digest_spec "admin" "pw"
      (fun s => match s with
        | .basic => Response.mk 401 "unauthorized"
        | .digest => Response.mk 200 "Invalid credentials!")
      rfl rfl).1 (by decide)⟩

/-- A `dict` lookup misses exactly when the key is absent. -/
theorem dictFind_eq_none (k : Nat) :
    ∀ l : List (Nat × Nat), dictFind k l = none ↔ k ∉ l.map Prod.fst := by
  intro l
  induction l with
  | nil => simp [dictFind]
  | cons p rest ih =>
    rcases p with ⟨pk, pv⟩
    by_cases h : pk = k
    · simp [dictFind, h]
    · simp only [dictFind, if_neg h, ih, List.map_cons, List.mem_cons]
      have hne : ¬ k = pk := fun hh => h hh.symm
      tauto

/-- Appending a fresh binding makes its key found. -/
theorem dictFind_append_self (k v : Nat) :
    ∀ l, dictFind k l = none → dictFind k (l ++ [(k, v)]) = some v := by
  intro l
  induction l with
  | nil => intro _; simp [dictFind]
  | cons p rest ih =>
    intro h
    rcases p with ⟨pk, pv⟩
    by_cases hp : pk = k
    · simp [dictFind, hp] at h
    · simp only [List.cons_append, dictFind, if_neg hp] at h ⊢
      exact ih h

/-- C6: given the at-most-one-pool-per-key invariant, requesting the
session for a retry count `r` twice returns the same session object
both times (and the second call does not change the map); the call
preserves the invariant; and every existing pool entry survives the
call unreplaced and unremoved. -/
theorem get_session_spec (st : SessionState) (r : Nat)
    (hkeys : (st.sessions.map Prod.fst).Nodup) :
    ((get_session (get_session st r).2 r).1 = (get_session st r).1 ∧
     (get_session (get_session st r).2 r).2 = (get_session st r).2) ∧
    ((get_session st r).2.sessions.map Prod.fst).Nodup ∧
    (∀ p ∈ st.sessions, p ∈ (get_session st r).2.sessions) := by
  rcases h : dictFind r st.sessions with _ | sid
  · have hnot : r ∉ st.sessions.map Prod.fst := (dictFind_eq_none r st.sessions).1 h
    have h2 : dictFind r (st.sessions ++ [(r, st.nextId)]) = some st.nextId :=
      dictFind_append_self r st.nextId st.sessions h
    refine ⟨?_, ?_, ?_⟩
    · simp [get_session, h, h2]
    · simp only [get_session, h]
      simp [List.nodup_append, hkeys, hnot]
    · intro p hp
      simp only [get_session, h]
      simp [hp]
  · refine ⟨?_, ?_, ?_⟩
    · simp [get_session, h]
    · simp [get_session, h, hkeys]
    · intro p hp
      simp [get_session, h, hp]

theorem get_session_spec_witness :
    ((List.map Prod.fst (SessionState.mk [] 0).sessions).Nodup) ∧
    (((get_session (get_session ⟨[], 0⟩ 5).2 5).1 = (get_session (⟨[], 0⟩ : SessionState) 5).1 ∧
      (get_session (get_session ⟨[], 0⟩ 5).2 5).2 = (get_session (⟨[], 0⟩ : SessionState) 5).2) ∧
     ((get_session (⟨[], 0⟩ : SessionState) 5).2.sessions.map Prod.fst).Nodup ∧
     (∀ p ∈ (SessionState.mk [] 0).sessions, p ∈ (get_session (⟨[], 0⟩ : SessionState) 5).2.sessions)) :=
  ⟨by simp, get_session_spec ⟨[], 0⟩ 5 (by simp)⟩

/-- C7 counterexample: a name/serial lookup failure that is not an
`AttributeError` (here an HTTP 500 error raised by the underlying
`command` call) propagates out of `_set_name`: construction does not
complete normally and the fields are not left empty. -/
theorem set_name_counterexample :
    set_name (.error (.httpError ⟨500, "boom"⟩)) (.ok "AMC123") =
      .error (.httpError ⟨500, "boom"⟩) ∧
    set_name (.error (.httpError ⟨500, "boom"⟩)) (.ok "AMC123") ≠
      .ok (none, none) :=
  ⟨rfl, fun h => by simp [set_name] at h⟩

/-- C7 amended: `_set_name` swallows exactly the `AttributeError`
failures of the name/serial lookups (leaving both fields empty) and
completes normally on success; any other exception raised by the
lookups propagates and construction fails. -/
theorem set_name_spec (mn sn : Except PyExc String) :
    (∀ n s, mn = .ok n → sn = .ok s → set_name mn sn = .ok (some n, some s)) ∧
    (mn = .error .attributeError → set_name mn sn = .ok (none, none)) ∧
    (∀ n, mn = .ok n → sn = .error .attributeError →
      set_name mn sn = .ok (none, none)) ∧
    (∀ e, e ≠ .attributeError → mn = .error e → set_name mn sn = .error e) ∧
    (∀ n e, mn = .ok n → e ≠ .attributeError → sn = .error e →
      set_name mn sn = .error e) := by
  refine ⟨?_, ?_, ?_, ?_, ?_⟩
  · rintro n s rfl rfl; rfl
  · rintro rfl; rfl
  · rintro n rfl rfl; rfl
  · rintro e he rfl
    rcases e with r | _ | _ | _
    · rfl
    · rfl
    · rfl
    · exact absurd rfl he
  · rintro n e rfl he rfl
    rcases e with r | _ | _ | _
    · rfl
    · rfl
    · rfl
    · exact absurd rfl he

theorem set_name_spec_witness :
    set_name (.ok "Camera1") (.ok "AMC123") = .ok (some "Camera1", some "AMC123") :=
  (set_name_spec (.ok "Camera1") (.ok "AMC123")).1 "Camera1" "AMC123" rfl rfl

/-- C8: `command_audio` issues exactly one POST (no retry loop), and an
expired read timeout on that POST is swallowed: the call returns
normally. -/
theorem command_audio_single_post (post : Nat → RequestOutcome) :
    (command_audio post).1 = 1 ∧
    (post 1 = .readTimeout → (command_audio post).2 = .ok ()) := by
  constructor
  · rcases h : post 1 with r | _ | _ <;> simp [command_audio, h]
  · intro h; simp [command_audio, h]

theorem command_audio_single_post_witness :
    (command_audio (fun _ => .readTimeout)).1 = 1 ∧
    ((fun _ : Nat => RequestOutcome.readTimeout) 1 = .readTimeout ∧
     (command_audio (fun _ => .readTimeout)).2 = .ok ()) :=
  ⟨(command_audio_single_post (fun _ => .readTimeout)).1,
   rfl, (command_audio_single_post (fun _ => .readTimeout)).2 rfl⟩

/-- C10: `command_audio` never checks the response status — any
completed response, 2xx or not, yields a normal return — while a
transport exception other than a read timeout (e.g. a connection
error) still propagates to the caller. -/
theorem command_audio_status (post : Nat → RequestOutcome) :
    (∀ r, post 1 = .resp r → (command_audio post).2 = .ok ()) ∧
    (post 1 = .connectionError →
      (command_audio post).2 = .error .connectionError) := by
  constructor
  · intro r h; simp [command_audio, h]
  · intro h; simp [command_audio, h]

theorem command_audio_status_witness :
    (command_audio (fun _ => .resp ⟨500, "Internal Server Error"⟩)).2 = .ok () :=
  (command_audio_status (fun _ => .resp ⟨500, "Internal Server Error"⟩)).1
    ⟨500, "Internal Server Error"⟩ rfl

/-- Unfolding `dictFindS` on a cons cell. -/
theorem dictFindS_cons (k k2 v : String) (rest : List (String × String)) :
    dictFindS k ((k2, v) :: rest) = if k2 = k then some v else dictFindS k rest :=
  rfl

/-- Overwriting one key in place leaves the lookup of any other key
unchanged. -/
theorem dictFindS_map_set_ne (k k2 v : String) (hne : k2 ≠ k) :
    ∀ d : List (String × String),
    dictFindS k2 (d.map (fun p => if p.1 = k then (k, v) else p)) =
      dictFindS k2 d := by
  intro d
  induction d with
  | nil => rfl
  | cons p rest ih =>
    rcases p with ⟨pk, pv⟩
    rw [List.map_cons]
    by_cases hp : pk = k
    · have hhead : (if (pk, pv).1 = k then (k, v) else (pk, pv)) = (k, v) :=
        if_pos hp
      rw [hhead, dictFindS_cons, dictFindS_cons, ih,
        if_neg (fun hh : k = k2 => hne hh.symm),
        if_neg (fun hh : pk = k2 => hne (hh.symm.trans hp))]
    · have hhead : (if (pk, pv).1 = k then (k, v) else (pk, pv)) = (pk, pv) :=
        if_neg hp
      rw [hhead, dictFindS_cons, dictFindS_cons, ih]

/-- Appending a binding for a different key leaves the lookup
unchanged. -/
theorem dictFindS_append_ne (k2 k v : String) (hne : k2 ≠ k) :
    ∀ l : List (String × String),
    dictFindS k2 (l ++ [(k, v)]) = dictFindS k2 l := by
  intro l
  induction l with
  | nil =>
    rw [List.nil_append, dictFindS_cons, if_neg (fun hh : k = k2 => hne hh.symm)]
  | cons p rest ih =>
    rcases p with ⟨pk, pv⟩
    rw [List.cons_append, dictFindS_cons, dictFindS_cons, ih]

/-- Setting a key leaves every other key's lookup unchanged. -/
theorem dictFindS_set_ne (k k2 v : String) (hne : k2 ≠ k)
    (d : List (String × String)) :
    dictFindS k2 (dictSet d k v) = dictFindS k2 d := by
  unfold dictSet
  by_cases hk : dictHasKey k d
  · rw [if_pos hk, dictFindS_map_set_ne k k2 v hne d]
  · rw [if_neg hk, dictFindS_append_ne k2 k v hne d]

/-- Overwriting an existing key in place makes its lookup the new
value. -/
theorem dictFindS_map_set_self (k v : String) :
    ∀ d : List (String × String), dictHasKey k d = true →
    dictFindS k (d.map (fun p => if p.1 = k then (k, v) else p)) = some v := by
  intro d
  induction d with
  | nil => intro h; simp [dictHasKey] at h
  | cons p rest ih =>
    intro h
    rcases p with ⟨pk, pv⟩
    rw [List.map_cons]
    by_cases hp : pk = k
    · have hhead : (if (pk, pv).1 = k then (k, v) else (pk, pv)) = (k, v) :=
        if_pos hp
      rw [hhead, dictFindS_cons, if_pos rfl]
    · have h2 : dictHasKey k rest = true := by
        simpa [dictHasKey, hp] using h
      have hhead : (if (pk, pv).1 = k then (k, v) else (pk, pv)) = (pk, pv) :=
        if_neg hp
      rw [hhead, dictFindS_cons, if_neg hp]
      exact ih h2

/-- Setting an existing key makes its lookup the new value. -/
theorem dictFindS_set_self (k v : String) (d : List (String × String))
    (hk : dictHasKey k d = true) :
    dictFindS k (dictSet d k v) = some v := by
  unfold dictSet
  rw [if_pos hk]
  exact dictFindS_map_set_self k v d hk

/-- C9: `as_dict` leaves the client state unchanged, its result maps
the `_token` and `_password` keys to the mask string, and every other
key to its original value from `self.__dict__`. -/
theorem as_dict_spec (st : HttpState) (k : String)
    (h1 : k ≠ "_token") (h2 : k ≠ "_password") :
    (as_dict st).2 = st ∧
    dictFindS "_token" (as_dict st).1 = some redacted ∧
    dictFindS "_password" (as_dict st).1 = some redacted ∧
    dictFindS k (as_dict st).1 = dictFindS k (http_dict st) := by
  have hd : (as_dict st).1 =
      dictSet (dictSet (http_dict st) "_token" redacted) "_password" redacted := rfl
  refine ⟨rfl, ?_, ?_, ?_⟩
  · rw [hd, dictFindS_set_ne "_password" "_token" redacted (by decide)]
    exact dictFindS_set_self "_token" redacted (http_dict st) rfl
  · rw [hd]
    exact dictFindS_set_self "_password" redacted
      (dictSet (http_dict st) "_token" redacted) rfl
  · rw [hd, dictFindS_set_ne "_password" k redacted h2,
      dictFindS_set_ne "_token" k redacted h1]

theorem as_dict_spec_witness :
    let st : HttpState :=
      ⟨"cam.local", "80", "admin", "secret", "True", "http",
       "http://cam.local:80/cgi-bin/", "2", "3", "\x7b\x7d",
       "<lock>", "digest", "<auth>", "Camera1", "AMC123"⟩
    (as_dict st).2 = st ∧
    dictFindS "_token" (as_dict st).1 = some redacted ∧
    dictFindS "_password" (as_dict st).1 = some redacted ∧
    dictFindS "_host" (as_dict st).1 = dictFindS "_host" (http_dict st) :=
  as_dict_spec
    ⟨"cam.local", "80", "admin", "secret", "True", "http",
     "http://cam.local:80/cgi-bin/", "2", "3", "\x7b\x7d",
     "<lock>", "digest", "<auth>", "Camera1", "AMC123"⟩
    "_host" (by decide) (by decide)

end Amcrest
